import Mathlib

set_option linter.unusedVariables false

/-!
Verification of the session lifecycle manager in
`src/app/redis/RedisManagement.js` (class `RedisSessionMgmt`).

The backing redis store is embedded as a pair of finite maps (values and
per-key time-to-live), and each method of the class is translated into a
pure state-passing function that additionally records the sequence of
store commands it issues (plus the hook invocation and the method-entry
log of `destroy`) as a trace, so that ordering claims can be stated.

JavaScript-runtime behaviour that the source relies on is modelled
explicitly and documented at the corresponding definition:
`JSON.stringify`/`JSON.parse` on wire values, truthiness (`a && b && c`),
object destructuring (which throws a TypeError on `null`), and the `||`
default-value idiom of the constructor.
-/

/-- JSON values: the serializable payloads stored as session records.
JavaScript object duplicate-key behaviour is handled in `jsLookup`. -/
inductive Json where
  | null : Json
  | bool (b : Bool) : Json
  | num (n : Int) : Json
  | str (s : String) : Json
  | arr (elems : List Json) : Json
  | obj (fields : List (String × Json)) : Json


/-- A value stored under a redis key.  `raw s` is the literal string `s`
(the module only ever writes the raw string "empty", the idle-marker
sentinel, which is not valid JSON text); `jsonOf j` is the string
`JSON.stringify(j)`.  The two constructors cannot represent the same
string because `"empty"` is not in the image of `JSON.stringify`. -/
inductive RedisVal where
  | raw (s : String) : RedisVal
  | jsonOf (j : Json) : RedisVal


/-- The observable commands issued against the redis store, plus the hook
invocation and the `destroy` method-entry log line, in program order. -/
inductive Event where
  | getCmd (key : String) (result : Option RedisVal) : Event
  | setCmd (key : String) (val : RedisVal) : Event
  | expireCmd (key : String) (ttlSec : Nat) : Event
  | delCmd (key : String) : Event
  | hookCall (realm accessToken refreshToken : Json) : Event
  | destroyCall (sid : String) : Event


abbrev Trace := List Event

/-- Errors a method can throw (rethrown from its `catch` block). -/
inductive JsError where
  | typeError (msg : String) : JsError
  | parseError (msg : String) : JsError
  | hookRejected : JsError


/-- The redis store: key-to-value map plus key-to-remaining-TTL map
(`none` = no expiry set). -/
structure RedisState where
  kv : String → Option RedisVal
  ttl : String → Option Nat

/-- The empty store (no key was ever set). -/
def RedisState.empty : RedisState :=
  { kv := fun _ => none, ttl := fun _ => none }

/-- redis GET. -/
def rGet (σ : RedisState) (k : String) : Option RedisVal := σ.kv k

/-- redis SET: stores the value and discards any previous TTL of the key
(redis semantics of a plain SET). -/
def rSet (σ : RedisState) (k : String) (v : RedisVal) : RedisState :=
  { kv := fun k' => if k' = k then some v else σ.kv k',
    ttl := fun k' => if k' = k then none else σ.ttl k' }

/-- redis EXPIRE: sets the TTL when the key exists, otherwise a no-op. -/
def rExpire (σ : RedisState) (k : String) (n : Nat) : RedisState :=
  if (σ.kv k).isSome then
    { σ with ttl := fun k' => if k' = k then some n else σ.ttl k' }
  else σ

/-- redis DEL (also how key expiry itself acts on the store: the key and
its TTL disappear). -/
def rDel (σ : RedisState) (k : String) : RedisState :=
  { kv := fun k' => if k' = k then none else σ.kv k',
    ttl := fun k' => if k' = k then none else σ.ttl k' }

/-- JavaScript `JSON.parse(data)` where `data` is the result of a redis
GET (so possibly `null`): `JSON.parse(null)` coerces `null` to the string
"null" and yields `null`; parsing the `JSON.stringify` image of a value
yields that value back; parsing a raw non-JSON string (such as the idle
sentinel "empty") throws a SyntaxError. -/
def jsonParse : Option RedisVal → Except JsError Json
  | none => .ok .null
  | some (.jsonOf j) => .ok j
  | some (.raw s) => .error (.parseError s)

/-- JavaScript property lookup on a parsed object: with duplicate keys
the last occurrence wins. -/
def jsLookup (fields : List (String × Json)) (k : String) : Option Json :=
  fields.reverse.lookup k

/-- JavaScript property access `record[k]`: `none` models `undefined`. -/
def getProp : Json → String → Option Json
  | .obj fields, k => jsLookup fields k
  | _, _ => none

/-- JavaScript destructuring
`const { accessToken, realm, refreshToken } = record`: throws a TypeError
when the record is `null`, otherwise reads the three properties (absent
ones are `undefined`, i.e. `none`; property access on a non-object
primitive or array yields `undefined` for these names). -/
def destructure3 (record : Json) :
    Except JsError (Option Json × Option Json × Option Json) :=
  match record with
  | .null => .error (.typeError "Cannot destructure property accessToken of null")
  | j => .ok (getProp j "accessToken", getProp j "realm", getProp j "refreshToken")

/-- JavaScript truthiness of a possibly-`undefined` value, as tested by
`accessToken && realm && refreshToken`. -/
def truthy : Option Json → Bool
  | none => false
  | some .null => false
  | some (.bool b) => b
  | some (.num n) => n != 0
  | some (.str s) => s != ""
  | some (.arr _) => true
  | some (.obj _) => true

/-- JavaScript `v || d` for an optionally-configured number: falls back to
the default when the value is missing or falsy (0). -/
def jsOrNat (v : Option Nat) (d : Nat) : Nat :=
  match v with
  | some n => if n = 0 then d else n
  | none => d

/-- JavaScript `v || d` for an optionally-configured string: falls back to
the default when the value is missing or falsy (the empty string). -/
def jsOrStr (v : Option String) (d : String) : String :=
  match v with
  | some s => if s = "" then d else s
  | none => d

/-- The five `session` configuration entries read by the constructor
(each may be absent). -/
structure SessionRedisConfig where
  maxLifeTimeSec : Option Nat
  maxIdleTimeSec : Option Nat
  maxLoginReturnTimeSec : Option Nat
  keyPrefixNameMaxLife : Option String
  keyPrefixNameMaxIdle : Option String

/-- The eviction hook registered via `setFuncToCallBeforeDestroy`,
called as `beforeDestroy(realm, accessToken, refreshToken)`; the Bool
tells whether the returned promise resolves (`true`) or rejects. -/
abbrev BeforeDestroyHook := Json → Json → Json → Bool

/-- The fields of class `RedisSessionMgmt` (the two redis connections are
represented by the explicit `RedisState` threading; `beforeDestroy` is
`none` until a hook is registered, matching the initially-undefined
property). -/
structure RedisSessionMgmt where
  maxLifetime : Nat
  maxIdleTime : Nat
  maxLoginReturnTime : Nat
  prefixSession : String
  prefixSessionIdle : String
  prefixSessionIdleSize : Nat
  sessionIdleValue : String
  beforeDestroy : Option BeforeDestroyHook

/-- The constructor of `RedisSessionMgmt` (configuration resolution with
the `||` defaults; `prefixSessionIdleSize = prefixSessionIdle.length`). -/
def RedisSessionMgmt.build (cfg : SessionRedisConfig) : RedisSessionMgmt :=
  let pIdle := jsOrStr cfg.keyPrefixNameMaxIdle "session-idle:"
  { maxLifetime := jsOrNat cfg.maxLifeTimeSec 86400
    maxIdleTime := jsOrNat cfg.maxIdleTimeSec 1800
    maxLoginReturnTime := jsOrNat cfg.maxLoginReturnTimeSec 120
    prefixSession := jsOrStr cfg.keyPrefixNameMaxLife "session:"
    prefixSessionIdle := pIdle
    prefixSessionIdleSize := pIdle.length
    sessionIdleValue := "empty"
    beforeDestroy := none }

/-- The manager under the default configuration (every entry absent). -/
def defaultMgmt : RedisSessionMgmt :=
  RedisSessionMgmt.build ⟨none, none, none, none, none⟩

/-- `setFuncToCallBeforeDestroy(prom)`. -/
def RedisSessionMgmt.setFuncToCallBeforeDestroy
    (m : RedisSessionMgmt) (prom : BeforeDestroyHook) : RedisSessionMgmt :=
  { m with beforeDestroy := some prom }

/-- `get(sid)`: reads the idle marker; only when it is non-null does it
read and `JSON.parse` the record; otherwise logs and returns `null`
(absent).  Read-only: the store is unchanged. -/
def RedisSessionMgmt.get (m : RedisSessionMgmt) (σ : RedisState)
    (sid : String) : Except JsError Json × Trace :=
  let keyIdle := m.prefixSessionIdle ++ sid
  let key := m.prefixSession ++ sid
  match rGet σ keyIdle with
  | some v =>
    let data := rGet σ key
    match jsonParse data with
    | .ok result => (.ok result, [.getCmd keyIdle (some v), .getCmd key data])
    | .error e => (.error e, [.getCmd keyIdle (some v), .getCmd key data])
  | none => (.ok .null, [.getCmd keyIdle none])

/-- `set(sid, sess)`: `JSON.stringify` the payload, SET the record key,
EXPIRE it to `maxLifetime`, SET the idle marker to the sentinel "empty",
EXPIRE it to `maxLoginReturnTime` — four sequential commands. -/
def RedisSessionMgmt.set (m : RedisSessionMgmt) (σ : RedisState)
    (sid : String) (sess : Json) : RedisState × Trace :=
  let key := m.prefixSession ++ sid
  let keyIdle := m.prefixSessionIdle ++ sid
  let value := RedisVal.jsonOf sess
  let σ1 := rSet σ key value
  let σ2 := rExpire σ1 key m.maxLifetime
  let σ3 := rSet σ2 keyIdle (RedisVal.raw m.sessionIdleValue)
  let σ4 := rExpire σ3 keyIdle m.maxLoginReturnTime
  (σ4, [.setCmd key value, .expireCmd key m.maxLifetime,
        .setCmd keyIdle (RedisVal.raw m.sessionIdleValue),
        .expireCmd keyIdle m.maxLoginReturnTime])

/-- `destroy(sid)`: fetches the record via `get` (a `get` error is
rethrown), destructures the credential triple (throws on `null`), awaits
`beforeDestroy(realm, accessToken, refreshToken)` when all three are
truthy (a rejection is rethrown by the `catch`, skipping the deletes;
an unregistered hook is a TypeError), then DELs the record key and the
idle-marker key.  The leading `destroyCall` event is the method-entry
log line. -/
def RedisSessionMgmt.destroy (m : RedisSessionMgmt) (σ : RedisState)
    (sid : String) : Except JsError Unit × RedisState × Trace :=
  let key := m.prefixSession ++ sid
  let keyIdle := m.prefixSessionIdle ++ sid
  match m.get σ sid with
  | (.error e, gtr) => (.error e, σ, .destroyCall sid :: gtr)
  | (.ok record, gtr) =>
    match destructure3 record with
    | .error e => (.error e, σ, .destroyCall sid :: gtr)
    | .ok (accessToken, realm, refreshToken) =>
      if truthy accessToken && truthy realm && truthy refreshToken then
        match m.beforeDestroy with
        | none =>
          (.error (.typeError "this.beforeDestroy is not a function"), σ,
           .destroyCall sid :: gtr)
        | some hook =>
          let rv := realm.getD .null
          let av := accessToken.getD .null
          let fv := refreshToken.getD .null
          if hook rv av fv then
            let σ1 := rDel σ key
            let σ2 := rDel σ1 keyIdle
            (.ok (), σ2,
             .destroyCall sid :: gtr ++
              [.hookCall rv av fv, .delCmd key, .delCmd keyIdle])
          else
            (.error .hookRejected, σ,
             .destroyCall sid :: gtr ++ [.hookCall rv av fv])
      else
        let σ1 := rDel σ key
        let σ2 := rDel σ1 keyIdle
        (.ok (), σ2, .destroyCall sid :: gtr ++ [.delCmd key, .delCmd keyIdle])

/-- `restartIdleTTL(sid)`: a single EXPIRE of the idle marker to
`maxIdleTime`. -/
def RedisSessionMgmt.restartIdleTTL (m : RedisSessionMgmt) (σ : RedisState)
    (sid : String) : RedisState × Trace :=
  let keyIdle := m.prefixSessionIdle ++ sid
  (rExpire σ keyIdle m.maxIdleTime, [.expireCmd keyIdle m.maxIdleTime])

/-- `onExpiration(channel, key)`: when the first `prefixSessionIdleSize`
characters of the key equal the idle prefix, slices off the prefix as the
sid and calls `destroy`; any error from `destroy` is caught and only
logged.  Otherwise the notification is ignored. -/
def RedisSessionMgmt.onExpiration (m : RedisSessionMgmt) (σ : RedisState)
    (channel key : String) : RedisState × Trace :=
  if key.take m.prefixSessionIdleSize = m.prefixSessionIdle then
    let sid := key.drop m.prefixSessionIdleSize
    match m.destroy σ sid with
    | (_, σ', tr) => (σ', tr)
  else (σ, [])

/-- The sids with which `destroy` was entered, read off a trace. -/
def destroyCalls (tr : Trace) : List String :=
  tr.filterMap fun e =>
    match e with
    | .destroyCall sid => some sid
    | _ => none

/-- The eviction-hook invocations recorded in a trace, each with its
argument triple in call order `(realm, accessToken, refreshToken)`. -/
def hookCalls (tr : Trace) : List (Json × Json × Json) :=
  tr.filterMap fun e =>
    match e with
    | .hookCall r a t => some (r, a, t)
    | _ => none

/-- A session record carrying the full credential triple, as in the
spec's test scenario. -/
def credRecord : Json :=
  .obj [("accessToken", .str "tok1"), ("realm", .str "master"),
        ("refreshToken", .str "ref1")]

/-- An eviction hook whose promise always resolves. -/
def hookAcceptAll : BeforeDestroyHook := fun _ _ _ => true

/-- An eviction hook whose promise always rejects. -/
def hookRejectAll : BeforeDestroyHook := fun _ _ _ => false

/-- The default-configuration manager with an always-resolving hook
registered. -/
def mgmtWithAcceptHook : RedisSessionMgmt :=
  defaultMgmt.setFuncToCallBeforeDestroy hookAcceptAll

/-- C5: `get(sid)` checks the idle marker first; when it is absent the
call returns absent (`null`) without error, without touching the record
key (the trace holds the single idle-marker GET), and with the store
unchanged (`get` is read-only by construction).  A never-set `sid` in
particular has no idle marker. -/
theorem get_absent_marker_returns_null
    (m : RedisSessionMgmt) (σ : RedisState) (sid : String)
    (h : σ.kv (m.prefixSessionIdle ++ sid) = none) :
    m.get σ sid = (.ok .null, [.getCmd (m.prefixSessionIdle ++ sid) none]) := by
  simp [RedisSessionMgmt.get, rGet, h]

/-- C5 witness: a never-set sid in the empty store. -/
theorem get_absent_marker_returns_null_witness :
    defaultMgmt.get RedisState.empty "u1" =
      (.ok .null, [.getCmd (defaultMgmt.prefixSessionIdle ++ "u1") none]) :=
  get_absent_marker_returns_null defaultMgmt RedisState.empty "u1" rfl

/-- C10: when the idle marker exists but the record key is absent,
`get(sid)` returns absent (`JSON.parse(null)` yields `null`) instead of
raising a decode error. -/
theorem get_marker_present_record_absent
    (m : RedisSessionMgmt) (σ : RedisState) (sid : String) (v : RedisVal)
    (hIdle : σ.kv (m.prefixSessionIdle ++ sid) = some v)
    (hRec : σ.kv (m.prefixSession ++ sid) = none) :
    m.get σ sid = (.ok .null,
      [.getCmd (m.prefixSessionIdle ++ sid) (some v),
       .getCmd (m.prefixSession ++ sid) none]) := by
  simp [RedisSessionMgmt.get, rGet, hIdle, hRec, jsonParse]

/-- C10 witness: a store holding only the idle marker. -/
theorem get_marker_present_record_absent_witness :
    defaultMgmt.get
      (rSet RedisState.empty ("session-idle:" ++ "u1") (.raw "empty")) "u1" =
      (.ok .null,
       [.getCmd (defaultMgmt.prefixSessionIdle ++ "u1") (some (.raw "empty")),
        .getCmd (defaultMgmt.prefixSession ++ "u1") none]) :=
  get_marker_present_record_absent defaultMgmt
    (rSet RedisState.empty ("session-idle:" ++ "u1") (.raw "empty"))
    "u1" (.raw "empty") rfl rfl

/-- C9: a direct `destroy(sid)` while the idle marker is absent: `get`
returns `null`, the credential destructuring throws a TypeError which the
`catch` rethrows, and the store is returned untouched — no DEL was
issued (the trace holds only the entry log and the idle-marker GET). -/
theorem destroy_without_marker_errors_unchanged
    (m : RedisSessionMgmt) (σ : RedisState) (sid : String)
    (h : σ.kv (m.prefixSessionIdle ++ sid) = none) :
    m.destroy σ sid =
      (.error (.typeError "Cannot destructure property accessToken of null"), σ,
       [.destroyCall sid, .getCmd (m.prefixSessionIdle ++ sid) none]) := by
  simp [RedisSessionMgmt.destroy, RedisSessionMgmt.get, rGet, h, destructure3]

/-- C9 witness: destroying a never-set sid in the empty store. -/
theorem destroy_without_marker_errors_unchanged_witness :
    defaultMgmt.destroy RedisState.empty "u1" =
      (.error (.typeError "Cannot destructure property accessToken of null"),
       RedisState.empty,
       [.destroyCall "u1", .getCmd (defaultMgmt.prefixSessionIdle ++ "u1") none]) :=
  destroy_without_marker_errors_unchanged defaultMgmt RedisState.empty "u1" rfl

/-- C8: `restartIdleTTL(sid)` sets the idle marker's remaining TTL to the
steady-state idle timeout (default 1800 s) and changes nothing else: no
key's value changes, and every key other than the idle marker keeps its
TTL (in particular the record key's TTL is untouched); the trace is the
single EXPIRE. -/
theorem restartIdleTTL_only_touches_marker_ttl
    (m : RedisSessionMgmt) (σ : RedisState) (sid : String) (v : RedisVal)
    (h : σ.kv (m.prefixSessionIdle ++ sid) = some v) :
    (m.restartIdleTTL σ sid).1.ttl (m.prefixSessionIdle ++ sid) = some m.maxIdleTime
    ∧ (m.restartIdleTTL σ sid).1.kv = σ.kv
    ∧ (∀ k, k ≠ m.prefixSessionIdle ++ sid → (m.restartIdleTTL σ sid).1.ttl k = σ.ttl k)
    ∧ (m.restartIdleTTL σ sid).2 = [.expireCmd (m.prefixSessionIdle ++ sid) m.maxIdleTime]
    ∧ defaultMgmt.maxIdleTime = 1800 := by
  refine ⟨?_, ?_, ?_, rfl, rfl⟩
  · simp [RedisSessionMgmt.restartIdleTTL, rExpire, h]
  · simp [RedisSessionMgmt.restartIdleTTL, rExpire, h]
  · intro k hk
    simp [RedisSessionMgmt.restartIdleTTL, rExpire, h, hk]

/-- C8 witness: restarting the idle TTL on a store holding the marker. -/
theorem restartIdleTTL_only_touches_marker_ttl_witness :
    (defaultMgmt.restartIdleTTL
        (rSet RedisState.empty ("session-idle:" ++ "u1") (.raw "empty"))
        "u1").1.ttl (defaultMgmt.prefixSessionIdle ++ "u1") =
      some defaultMgmt.maxIdleTime :=
  (restartIdleTTL_only_touches_marker_ttl defaultMgmt
    (rSet RedisState.empty ("session-idle:" ++ "u1") (.raw "empty"))
    "u1" (.raw "empty") rfl).1

/-- C7: `set(sid, data)` issues exactly four sequential commands — record
SET, record EXPIRE to `maxLifetime`, idle-marker SET, idle-marker EXPIRE
to `maxLoginReturnTime` (record first) — leaving the record key with TTL
`maxLifetime` (default 86400 s) and the idle marker with TTL
`maxLoginReturnTime` (default 120 s), which at the defaults is the short
initial grace period and not the steady-state idle timeout (1800 s). -/
theorem set_writes_record_then_marker_with_ttls
    (m : RedisSessionMgmt) (σ : RedisState) (sid : String) (sess : Json)
    (hne : m.prefixSession ++ sid ≠ m.prefixSessionIdle ++ sid) :
    (m.set σ sid sess).2 =
      [.setCmd (m.prefixSession ++ sid) (RedisVal.jsonOf sess),
       .expireCmd (m.prefixSession ++ sid) m.maxLifetime,
       .setCmd (m.prefixSessionIdle ++ sid) (RedisVal.raw m.sessionIdleValue),
       .expireCmd (m.prefixSessionIdle ++ sid) m.maxLoginReturnTime]
    ∧ (m.set σ sid sess).1.ttl (m.prefixSession ++ sid) = some m.maxLifetime
    ∧ (m.set σ sid sess).1.ttl (m.prefixSessionIdle ++ sid) = some m.maxLoginReturnTime
    ∧ defaultMgmt.maxLifetime = 86400
    ∧ defaultMgmt.maxLoginReturnTime = 120
    ∧ defaultMgmt.maxIdleTime = 1800
    ∧ defaultMgmt.maxLoginReturnTime ≠ defaultMgmt.maxIdleTime := by
  refine ⟨rfl, ?_, ?_, rfl, rfl, rfl, by decide⟩
  · simp [RedisSessionMgmt.set, rSet, rExpire, hne]
  · simp [RedisSessionMgmt.set, rSet, rExpire, hne]

/-- C7 witness: a set under the default configuration. -/
theorem set_writes_record_then_marker_with_ttls_witness :
    (defaultMgmt.set RedisState.empty "u1" credRecord).1.ttl
        (defaultMgmt.prefixSession ++ "u1") = some defaultMgmt.maxLifetime :=
  (set_writes_record_then_marker_with_ttls defaultMgmt RedisState.empty
    "u1" credRecord (by decide)).2.1

/-- C4: immediately after `set(sid, data)` (keys distinct, as under the
configured prefixes), `get(sid)` returns exactly the stored payload: the
serialize/deserialize round trip is the identity on serializable
values. -/
theorem get_after_set_roundtrip
    (m : RedisSessionMgmt) (σ : RedisState) (sid : String) (sess : Json)
    (hne : m.prefixSession ++ sid ≠ m.prefixSessionIdle ++ sid) :
    (m.get (m.set σ sid sess).1 sid).1 = .ok sess := by
  simp [RedisSessionMgmt.set, RedisSessionMgmt.get, rGet, rSet, rExpire,
        jsonParse, hne]

/-- C4 witness: set-then-get of the credential record. -/
theorem get_after_set_roundtrip_witness :
    (defaultMgmt.get (defaultMgmt.set RedisState.empty "u1" credRecord).1 "u1").1 =
      .ok credRecord :=
  get_after_set_roundtrip defaultMgmt RedisState.empty "u1" credRecord (by decide)

@[simp] theorem destroyCalls_nil : destroyCalls [] = [] := rfl

@[simp] theorem destroyCalls_cons_destroyCall (sid : String) (tr : Trace) :
    destroyCalls (.destroyCall sid :: tr) = sid :: destroyCalls tr := rfl

@[simp] theorem destroyCalls_cons_getCmd (k : String) (r : Option RedisVal)
    (tr : Trace) : destroyCalls (.getCmd k r :: tr) = destroyCalls tr := rfl

@[simp] theorem destroyCalls_cons_setCmd (k : String) (v : RedisVal)
    (tr : Trace) : destroyCalls (.setCmd k v :: tr) = destroyCalls tr := rfl

@[simp] theorem destroyCalls_cons_expireCmd (k : String) (n : Nat)
    (tr : Trace) : destroyCalls (.expireCmd k n :: tr) = destroyCalls tr := rfl

@[simp] theorem destroyCalls_cons_delCmd (k : String) (tr : Trace) :
    destroyCalls (.delCmd k :: tr) = destroyCalls tr := rfl

@[simp] theorem destroyCalls_cons_hookCall (r a t : Json) (tr : Trace) :
    destroyCalls (.hookCall r a t :: tr) = destroyCalls tr := rfl

@[simp] theorem destroyCalls_append (a b : Trace) :
    destroyCalls (a ++ b) = destroyCalls a ++ destroyCalls b :=
  List.filterMap_append a b _

@[simp] theorem hookCalls_nil : hookCalls [] = [] := rfl

@[simp] theorem hookCalls_cons_hookCall (r a t : Json) (tr : Trace) :
    hookCalls (.hookCall r a t :: tr) = (r, a, t) :: hookCalls tr := rfl

@[simp] theorem hookCalls_cons_destroyCall (sid : String) (tr : Trace) :
    hookCalls (.destroyCall sid :: tr) = hookCalls tr := rfl

@[simp] theorem hookCalls_cons_getCmd (k : String) (r : Option RedisVal)
    (tr : Trace) : hookCalls (.getCmd k r :: tr) = hookCalls tr := rfl

@[simp] theorem hookCalls_cons_setCmd (k : String) (v : RedisVal)
    (tr : Trace) : hookCalls (.setCmd k v :: tr) = hookCalls tr := rfl

@[simp] theorem hookCalls_cons_expireCmd (k : String) (n : Nat)
    (tr : Trace) : hookCalls (.expireCmd k n :: tr) = hookCalls tr := rfl

@[simp] theorem hookCalls_cons_delCmd (k : String) (tr : Trace) :
    hookCalls (.delCmd k :: tr) = hookCalls tr := rfl

@[simp] theorem hookCalls_append (a b : Trace) :
    hookCalls (a ++ b) = hookCalls a ++ hookCalls b :=
  List.filterMap_append a b _

/-- `get` never enters `destroy`: its trace holds no entry log. -/
theorem get_trace_no_destroy (m : RedisSessionMgmt) (σ : RedisState)
    (sid : String) : destroyCalls (m.get σ sid).2 = [] := by
  simp only [RedisSessionMgmt.get]
  split
  · split <;> simp
  · simp

/-- Every run of `destroy sid` — whatever its outcome — enters exactly
once, with that sid. -/
theorem destroy_trace_one_destroy (m : RedisSessionMgmt) (σ : RedisState)
    (sid : String) : destroyCalls (m.destroy σ sid).2.2 = [sid] := by
  have hg := get_trace_no_destroy m σ sid
  rcases hget : m.get σ sid with ⟨res, gtr⟩
  rw [hget] at hg
  simp only at hg
  simp only [RedisSessionMgmt.destroy, hget]
  rcases res with e | record
  · simp [hg]
  · rcases hd : destructure3 record with e | ⟨aT, rlm, rT⟩
    · simp [hd, hg]
    · simp only [hd]
      by_cases hc : (truthy aT && truthy rlm && truthy rT) = true
      · rw [if_pos hc]
        rcases hb : m.beforeDestroy with _ | hook
        · simp [hg]
        · by_cases hk :
            hook (rlm.getD .null) (aT.getD .null) (rT.getD .null) = true
          · simp [hk, hg]
          · simp [hk, hg]
      · rw [if_neg hc]
        simp [hg]

/-- C6: the listener enters `destroy` exactly when the notification key
starts with the configured idle-marker prefix, and then exactly once,
with the sid equal to the key minus that prefix; any other key (for
example a record key) triggers no `destroy`.  The hypothesis fixes the
cached prefix size to the prefix's length, as the constructor sets it. -/
theorem onExpiration_destroy_iff_marker_key
    (m : RedisSessionMgmt) (σ : RedisState) (channel key : String)
    (hSize : m.prefixSessionIdleSize = m.prefixSessionIdle.length) :
    destroyCalls (m.onExpiration σ channel key).2 =
      (if key.take m.prefixSessionIdle.length = m.prefixSessionIdle then
        [key.drop m.prefixSessionIdle.length]
      else []) := by
  simp only [RedisSessionMgmt.onExpiration, hSize]
  by_cases h : key.take m.prefixSessionIdle.length = m.prefixSessionIdle
  · rw [if_pos h, if_pos h]
    have h1 := destroy_trace_one_destroy m σ (key.drop m.prefixSessionIdle.length)
    rcases hd : m.destroy σ (key.drop m.prefixSessionIdle.length) with ⟨res, σ', tr⟩
    rw [hd] at h1
    simp only [hd]
    simpa using h1
  · rw [if_neg h, if_neg h]
    rfl

/-- C6 witness: an expired idle-marker key under the default prefixes. -/
theorem onExpiration_destroy_iff_marker_key_witness :
    destroyCalls ((defaultMgmt.onExpiration RedisState.empty
        "__keyevent@0__:expired" "session-idle:u1").2) =
      (if ("session-idle:u1").take defaultMgmt.prefixSessionIdle.length =
            defaultMgmt.prefixSessionIdle then
        [("session-idle:u1").drop defaultMgmt.prefixSessionIdle.length]
      else []) :=
  onExpiration_destroy_iff_marker_key defaultMgmt RedisState.empty
    "__keyevent@0__:expired" "session-idle:u1" rfl

/-- C2: on a readable record (idle marker present, record key holding a
destructurable payload), `destroy` invokes the registered hook iff all
three credential fields are truthy (present and non-empty); when invoked
it is invoked exactly once, with arguments in the order
`(realm, accessToken, refreshToken)`, and the invocation comes before
any DEL (the DELs happen only after, and only if, the hook resolves). -/
theorem destroy_hook_invocation
    (m : RedisSessionMgmt) (σ : RedisState) (sid : String) (v : RedisVal)
    (r : Json) (aT rlm rT : Option Json) (hook : BeforeDestroyHook)
    (hm : m.beforeDestroy = some hook)
    (hIdle : σ.kv (m.prefixSessionIdle ++ sid) = some v)
    (hRec : σ.kv (m.prefixSession ++ sid) = some (RedisVal.jsonOf r))
    (hDes : destructure3 r = .ok (aT, rlm, rT)) :
    (if (truthy aT && truthy rlm && truthy rT) = true then
      (m.destroy σ sid).2.2 =
        [.destroyCall sid,
         .getCmd (m.prefixSessionIdle ++ sid) (some v),
         .getCmd (m.prefixSession ++ sid) (some (RedisVal.jsonOf r)),
         .hookCall (rlm.getD .null) (aT.getD .null) (rT.getD .null)] ++
        (if hook (rlm.getD .null) (aT.getD .null) (rT.getD .null) then
          [.delCmd (m.prefixSession ++ sid), .delCmd (m.prefixSessionIdle ++ sid)]
        else [])
     else hookCalls (m.destroy σ sid).2.2 = []) := by
  have hget : m.get σ sid =
      (.ok r, [.getCmd (m.prefixSessionIdle ++ sid) (some v),
               .getCmd (m.prefixSession ++ sid) (some (RedisVal.jsonOf r))]) := by
    simp [RedisSessionMgmt.get, rGet, hIdle, hRec, jsonParse]
  by_cases hc : (truthy aT && truthy rlm && truthy rT) = true
  · rw [if_pos hc]
    simp only [RedisSessionMgmt.destroy, hget, hDes, hm, if_pos hc]
    by_cases hk : hook (rlm.getD .null) (aT.getD .null) (rT.getD .null) = true
    · simp [hk]
    · simp [hk]
  · rw [if_neg hc]
    simp only [RedisSessionMgmt.destroy, hget, hDes, hm, if_neg hc]
    simp

/-- C2 witness: a credentialed record with an always-resolving hook. -/
theorem destroy_hook_invocation_witness :
    (if (truthy (some (.str "tok1")) && truthy (some (.str "master")) &&
          truthy (some (.str "ref1"))) = true then
      (mgmtWithAcceptHook.destroy
          (mgmtWithAcceptHook.set RedisState.empty "u1" credRecord).1 "u1").2.2 =
        [.destroyCall "u1",
         .getCmd (mgmtWithAcceptHook.prefixSessionIdle ++ "u1") (some (.raw "empty")),
         .getCmd (mgmtWithAcceptHook.prefixSession ++ "u1")
           (some (RedisVal.jsonOf credRecord)),
         .hookCall ((some (Json.str "master")).getD .null)
           ((some (Json.str "tok1")).getD .null)
           ((some (Json.str "ref1")).getD .null)] ++
        (if hookAcceptAll ((some (Json.str "master")).getD .null)
              ((some (Json.str "tok1")).getD .null)
              ((some (Json.str "ref1")).getD .null) then
          [.delCmd (mgmtWithAcceptHook.prefixSession ++ "u1"),
           .delCmd (mgmtWithAcceptHook.prefixSessionIdle ++ "u1")]
        else [])
     else hookCalls (mgmtWithAcceptHook.destroy
        (mgmtWithAcceptHook.set RedisState.empty "u1" credRecord).1 "u1").2.2 = []) :=
  destroy_hook_invocation mgmtWithAcceptHook
    (mgmtWithAcceptHook.set RedisState.empty "u1" credRecord).1 "u1"
    (.raw "empty") credRecord (some (.str "tok1")) (some (.str "master"))
    (some (.str "ref1")) hookAcceptAll rfl rfl rfl rfl

/-- The default-configuration manager with an always-rejecting hook
registered, and a store holding the credentialed session "u1": the
scenario refuting the unconditional-deletion reading of `destroy`. -/
def mgmtWithRejectHook : RedisSessionMgmt :=
  defaultMgmt.setFuncToCallBeforeDestroy hookRejectAll

def rejectScenarioState : RedisState :=
  (mgmtWithRejectHook.set RedisState.empty "u1" credRecord).1

def rejectScenarioOutcome : Except JsError Unit × RedisState × Trace :=
  mgmtWithRejectHook.destroy rejectScenarioState "u1"

/-- C3 counterexample: with a rejecting hook, `destroy("u1")` on a
credentialed record invokes the hook, rethrows its failure, and deletes
NEITHER key — both entries survive, contradicting "deletes both keys
regardless of whether the eviction hook succeeded or failed". -/
theorem destroy_hook_failure_keeps_keys :
    rejectScenarioOutcome.1 = .error .hookRejected
    ∧ rejectScenarioOutcome.2.1.kv ("session:" ++ "u1") =
        some (.jsonOf credRecord)
    ∧ rejectScenarioOutcome.2.1.kv ("session-idle:" ++ "u1") =
        some (.raw "empty")
    ∧ hookCalls rejectScenarioOutcome.2.2 =
        [(.str "master", .str "tok1", .str "ref1")] :=
  ⟨rfl, rfl, rfl, rfl⟩

/-- C3 amended: on a readable, destructurable record, `destroy(sid)`
deletes both the record key and the idle-marker key after the
eviction-hook step provided the hook, when invoked, succeeds (when the
credential triple is not fully truthy the hook is skipped and the
deletion is unconditional); when the hook fails, the error propagates
and neither key is deleted (see `destroy_hook_failure_keeps_keys`). -/
theorem destroy_deletes_keys_when_hook_ok
    (m : RedisSessionMgmt) (σ : RedisState) (sid : String) (v : RedisVal)
    (r : Json) (aT rlm rT : Option Json) (hook : BeforeDestroyHook)
    (hm : m.beforeDestroy = some hook)
    (hIdle : σ.kv (m.prefixSessionIdle ++ sid) = some v)
    (hRec : σ.kv (m.prefixSession ++ sid) = some (RedisVal.jsonOf r))
    (hDes : destructure3 r = .ok (aT, rlm, rT))
    (hOk : (truthy aT && truthy rlm && truthy rT) = true →
           hook (rlm.getD .null) (aT.getD .null) (rT.getD .null) = true) :
    (m.destroy σ sid).1 = .ok ()
    ∧ (m.destroy σ sid).2.1.kv (m.prefixSession ++ sid) = none
    ∧ (m.destroy σ sid).2.1.kv (m.prefixSessionIdle ++ sid) = none := by
  have hget : m.get σ sid =
      (.ok r, [.getCmd (m.prefixSessionIdle ++ sid) (some v),
               .getCmd (m.prefixSession ++ sid) (some (RedisVal.jsonOf r))]) := by
    simp [RedisSessionMgmt.get, rGet, hIdle, hRec, jsonParse]
  by_cases hc : (truthy aT && truthy rlm && truthy rT) = true
  · have hk := hOk hc
    simp only [RedisSessionMgmt.destroy, hget, hDes, hm, if_pos hc, if_pos hk]
    simp [rDel]
  · simp only [RedisSessionMgmt.destroy, hget, hDes, hm, if_neg hc]
    simp [rDel]

/-- C3 amended witness: a credentialed record with a resolving hook. -/
theorem destroy_deletes_keys_when_hook_ok_witness :
    (mgmtWithAcceptHook.destroy
        (mgmtWithAcceptHook.set RedisState.empty "u1" credRecord).1 "u1").1 = .ok ()
    ∧ (mgmtWithAcceptHook.destroy
        (mgmtWithAcceptHook.set RedisState.empty "u1" credRecord).1 "u1").2.1.kv
        (mgmtWithAcceptHook.prefixSession ++ "u1") = none
    ∧ (mgmtWithAcceptHook.destroy
        (mgmtWithAcceptHook.set RedisState.empty "u1" credRecord).1 "u1").2.1.kv
        (mgmtWithAcceptHook.prefixSessionIdle ++ "u1") = none :=
  destroy_deletes_keys_when_hook_ok mgmtWithAcceptHook
    (mgmtWithAcceptHook.set RedisState.empty "u1" credRecord).1 "u1"
    (.raw "empty") credRecord (some (.str "tok1")) (some (.str "master"))
    (some (.str "ref1")) hookAcceptAll rfl rfl rfl rfl (fun _ => rfl)

/-- The store after setting the credentialed session "u1" and then
losing its idle marker (key expiry removes the key), and the outcome of
dispatching the corresponding expired-key notification to the
listener. -/
def stateAfterMarkerExpiry : RedisState :=
  rDel ((mgmtWithAcceptHook.set RedisState.empty "u1" credRecord).1)
    ("session-idle:" ++ "u1")

def expiryOutcome : RedisState × Trace :=
  mgmtWithAcceptHook.onExpiration stateAfterMarkerExpiry
    "__keyevent@0__:expired" ("session-idle:" ++ "u1")

/-- C1: after the idle marker of the previously set "u1" is removed and
its expiration event is handled by the listener, `get("u1")` does return
absent and the idle marker is gone, but the record key is NOT deleted:
the listener's `destroy` runs (one entry in the trace), yet `get` inside
it returns `null`, the destructuring throws before any DEL is issued,
and the swallowed error leaves the record in the store (the hook also
never fires) — contrary to the claim and to the handler's own doc
comment, which says it deletes the record key. -/
theorem onExpiration_after_marker_gone_leaves_record :
    (mgmtWithAcceptHook.get expiryOutcome.1 "u1").1 = .ok .null
    ∧ expiryOutcome.1.kv ("session:" ++ "u1") = some (.jsonOf credRecord)
    ∧ expiryOutcome.1.kv ("session-idle:" ++ "u1") = none
    ∧ hookCalls expiryOutcome.2 = []
    ∧ destroyCalls expiryOutcome.2 = ["u1"] :=
  ⟨rfl, rfl, rfl, rfl, rfl⟩
